import Mathlib

/-!
Verification of the rpac research-paper-analysis pipeline.

The Python services under `backend/src/services` and the `/analyze` route are
shallowly embedded below.  Text is modelled as `List Char`; Python's float
arithmetic is idealised as exact rational arithmetic (`ℚ`); external HTTP
calls (the Semantic Scholar search API) and the external ML summarizer model
are modelled as oracle functions carried in explicit environment records, so
that every service function is a total, executable Lean function of its
inputs and its environment.
-/

namespace Rpac

/-- Text is a list of characters (Python `str`). -/
abbrev Str := List Char

/-- Python whitespace characters, as used by `str.strip` and `str.split`. -/
def isPySpace (c : Char) : Bool :=
  c == ' ' || c == '\t' || c == '\n' || c == '\r' || c == '\x0b' || c == '\x0c'

/-- Python `str.strip()`: drop leading and trailing whitespace. -/
def pyStrip (l : Str) : Str :=
  ((l.dropWhile isPySpace).reverse.dropWhile isPySpace).reverse

/-- Python `str.lower()` (ASCII idealisation). -/
def pyLower (l : Str) : Str := l.map Char.toLower

/-- A regex `\w` character: alphanumeric or underscore. -/
def isWordChar (c : Char) : Bool := c.isAlphanum || c == '_'

/-- Helper for `splitRuns`: accumulate the current run (reversed) while
scanning. -/
def splitRunsAux (p : Char → Bool) : Str → Str → List Str
  | [], acc => if acc.isEmpty then [] else [acc.reverse]
  | c :: cs, acc =>
    if p c then splitRunsAux p cs (c :: acc)
    else if acc.isEmpty then splitRunsAux p cs []
    else acc.reverse :: splitRunsAux p cs []

/-- Maximal runs of characters satisfying `p`.  Models `re.findall(r'\w+', s)`
(with `p = isWordChar`) and Python `str.split()` (with `p` = not whitespace). -/
def splitRuns (p : Char → Bool) (l : Str) : List Str := splitRunsAux p l []

/-- Python `str.split()` with no argument: whitespace-separated words,
no empty pieces. -/
def pySplitWs (l : Str) : List Str := splitRuns (fun c => !(isPySpace c)) l

/-- Does `l` start with `pat`? -/
def leadsWith : Str → Str → Bool
  | [], _ => true
  | _ :: _, [] => false
  | p :: ps, c :: cs => p == c && leadsWith ps cs

/-- Python's `pat in l` substring test. -/
def containsSeg : Str → Str → Bool
  | pat, [] => pat.isEmpty
  | pat, c :: cs => leadsWith pat (c :: cs) || containsSeg pat cs

/-- Python `l.find(pat)` restricted to success: index of the leftmost
occurrence of `pat` in `l`, or `none`. -/
def firstIdxOf (pat : Str) : Str → Option ℕ
  | [] => if pat.isEmpty then some 0 else none
  | c :: cs =>
    if leadsWith pat (c :: cs) then some 0 else (firstIdxOf pat cs).map (· + 1)

/-- Python `' '.join`. -/
def joinSpace : List Str → Str
  | [] => []
  | [s] => s
  | s :: t :: rest => s ++ ' ' :: joinSpace (t :: rest)

/-- Convert a Lean string literal to our character-list texts. -/
def str (s : String) : Str := s.data

/-- Python 3 `round(q)`: round half to even (banker's rounding). -/
def roundHalfEven (q : ℚ) : ℤ :=
  if q - ⌊q⌋ < 1/2 then ⌊q⌋
  else if (1:ℚ)/2 < q - ⌊q⌋ then ⌊q⌋ + 1
  else if ⌊q⌋ % 2 = 0 then ⌊q⌋ else ⌊q⌋ + 1

/-- Python `round(q, 2)`. -/
def round2 (q : ℚ) : ℚ := (roundHalfEven (q * 100) : ℚ) / 100

lemma le_roundHalfEven {q : ℚ} : ⌊q⌋ ≤ roundHalfEven q := by
  unfold roundHalfEven
  split
  · exact le_refl _
  · split
    · omega
    · split <;> omega

lemma roundHalfEven_nonneg {q : ℚ} (h : 0 ≤ q) : 0 ≤ roundHalfEven q := by
  have h0 : (0 : ℤ) ≤ ⌊q⌋ := by
    rw [Int.le_floor]
    exact_mod_cast h
  exact le_trans h0 le_roundHalfEven

lemma roundHalfEven_le {q : ℚ} {n : ℤ} (h : q ≤ n) : roundHalfEven q ≤ n := by
  have hfl : ⌊q⌋ ≤ n := by
    have := Int.floor_le_floor h
    simpa using this
  have hstep : (1:ℚ)/2 ≤ q - ⌊q⌋ → ⌊q⌋ + 1 ≤ n := by
    intro hr
    have h1 : (⌊q⌋ : ℚ) + 1/2 ≤ q := by linarith
    have h2 : (⌊q⌋ : ℚ) + 1/2 ≤ (n : ℚ) := le_trans h1 h
    have h3 : (⌊q⌋ : ℚ) < (n : ℚ) := by linarith
    have h4 : ⌊q⌋ < n := by exact_mod_cast h3
    omega
  unfold roundHalfEven
  split
  · exact hfl
  · rename_i hlt
    push_neg at hlt
    split
    · exact hstep hlt
    · split
      · exact hfl
      · exact hstep hlt

lemma round2_nonneg {q : ℚ} (h : 0 ≤ q) : 0 ≤ round2 q := by
  unfold round2
  have : (0:ℤ) ≤ roundHalfEven (q * 100) := roundHalfEven_nonneg (by positivity)
  positivity

lemma round2_le_100 {q : ℚ} (h : q ≤ 100) : round2 q ≤ 100 := by
  unfold round2
  have h1 : q * 100 ≤ ((10000 : ℤ) : ℚ) := by push_cast; linarith
  have h2 : roundHalfEven (q * 100) ≤ 10000 := roundHalfEven_le h1
  have h3 : ((roundHalfEven (q * 100) : ℤ) : ℚ) ≤ 10000 := by exact_mod_cast h2
  linarith

/-! ### Plagiarism service (`plagiarism_service.py`, class `PlagiarismService`)

`detect_plagiarism` tokenizes the lowered text with `\b\w+\b`, keeps words
longer than 4 characters, and returns 0 early when fewer than 3 remain.
Otherwise it queries the Semantic Scholar search API (the first 6 kept words
as the query, limit 5); the response is abstracted by `PlagEnv.response`
(`none` models a timeout / request exception / invalid JSON, all caught by the
surrounding `try`).  Abstracts longer than 50 characters are compared with the
input through a TF-IDF cosine similarity, abstracted by the oracle
`PlagEnv.sim` (`none` models an exception inside the similarity computation,
caught by the inner `try`; the values are cosine similarities of nonnegative
TF-IDF vectors, hence in `[0, 1]`). -/

/-- One paper of a search response; `abstract` is `""` when the JSON field is
missing (`paper.get("abstract", "")`). -/
structure Paper where
  abstract : Str

/-- A completed HTTP response: status code and optional `"data"` list. -/
structure SearchResp where
  status : ℕ
  data : Option (List Paper)

/-- Environment of `detect_plagiarism`: the search response and the TF-IDF
cosine-similarity computation, both external to the scored logic. -/
structure PlagEnv where
  response : Option SearchResp
  sim : Str → List Str → Option (List ℚ)

/-- `re.findall(r'\b\w+\b', text.lower())` filtered to words longer than 4
characters (`common_words` in the source). -/
def commonWords (text : Str) : List Str :=
  (splitRuns isWordChar (pyLower text)).filter (fun w => 4 < w.length)

/-- Abstract extraction from a response: only a 200-status response with a
`"data"` field contributes, and only abstracts longer than 50 characters. -/
def abstractsFrom (resp : SearchResp) : List Str :=
  if resp.status = 200 then
    match resp.data with
    | some papers => (papers.map Paper.abstract).filter (fun a => 50 < a.length)
    | none => []
  else []

/-- The abstracts the service would compare against, for a given environment. -/
def abstractsOfEnv (env : PlagEnv) : List Str :=
  match env.response with
  | none => []
  | some resp => abstractsFrom resp

/-- `PlagiarismService.detect_plagiarism`, instrumented: returns the score and
whether the external search request was issued. -/
def detectRun (env : PlagEnv) (text : Str) : ℚ × Bool :=
  if (commonWords text).length < 3 then (0, false)
  else
    match env.response with
    | none => (0, true)
    | some resp =>
      let abstracts := abstractsFrom resp
      if abstracts = [] then (0, true)
      else
        match env.sim text abstracts with
        | none => (0, true)
        | some [] => (0, true)
        | some (s :: ss) =>
          let m := ss.foldl max s
          (if 10 < m * 100 then round2 (m * 100) else 0, true)

/-- `PlagiarismService.detect_plagiarism`: the returned score. -/
def detectPlagiarism (env : PlagEnv) (text : Str) : ℚ := (detectRun env text).1

/-- The maximum TF-IDF cosine similarity as a percentage (`max_score` in the
source), 0 in every branch where the similarity computation is not reached. -/
def maxSimPct (env : PlagEnv) (text : Str) : ℚ :=
  if (commonWords text).length < 3 then 0
  else
    match env.response with
    | none => 0
    | some resp =>
      let abstracts := abstractsFrom resp
      if abstracts = [] then 0
      else
        match env.sim text abstracts with
        | none => 0
        | some [] => 0
        | some (s :: ss) => (ss.foldl max s) * 100

lemma foldl_max_le {b : ℚ} :
    ∀ (ss : List ℚ) (s : ℚ), s ≤ b → (∀ x ∈ ss, x ≤ b) → ss.foldl max s ≤ b := by
  intro ss
  induction ss with
  | nil => intro s hs _; simpa using hs
  | cons x xs ih =>
    intro s hs hall
    simp only [List.foldl_cons]
    refine ih _ (max_le hs (hall x (by simp))) ?_
    intro y hy
    exact hall y (by simp [hy])

/-- C1: for every input text the plagiarism score returned by
`PlagiarismService.detect_plagiarism` lies in `[0, 100]` (the similarity
values being cosine similarities in `[0, 1]`), and whenever the maximum
TF-IDF cosine similarity percentage over the retrieved abstracts is below the
10% noise floor, the returned score is exactly 0. -/
theorem detect_plagiarism_range_and_noise_floor (env : PlagEnv) (text : Str)
    (hsim : ∀ l, env.sim text (abstractsOfEnv env) = some l → ∀ s ∈ l, 0 ≤ s ∧ s ≤ 1) :
    (0 ≤ detectPlagiarism env text ∧ detectPlagiarism env text ≤ 100) ∧
    (maxSimPct env text < 10 → detectPlagiarism env text = 0) := by
  unfold detectPlagiarism detectRun maxSimPct
  by_cases h3 : (commonWords text).length < 3
  · simp [h3]
  · simp only [h3, if_false]
    cases hr : env.response with
    | none => simp
    | some resp =>
      by_cases habs : abstractsFrom resp = []
      · simp [habs]
      · simp only [habs, if_false]
        cases hs : env.sim text (abstractsFrom resp) with
        | none => simp
        | some l =>
          cases l with
          | nil => simp
          | cons s ss =>
            have hb : ∀ x ∈ s :: ss, 0 ≤ x ∧ x ≤ 1 := by
              apply hsim
              rw [abstractsOfEnv, hr]
              exact hs
            have hm1 : ss.foldl max s ≤ 1 :=
              foldl_max_le ss s (hb s (by simp)).2 (fun x hx => (hb x (by simp [hx])).2)
            by_cases h10 : 10 < (ss.foldl max s) * 100
            · simp only [h10, if_true]
              refine ⟨⟨?_, ?_⟩, ?_⟩
              · exact round2_nonneg (by linarith)
              · exact round2_le_100 (by linarith)
              · intro hlt
                linarith
            · simp [h10]

/-- Witness for C1 at a concrete environment and text. -/
theorem detect_plagiarism_range_and_noise_floor_witness :
    (0 ≤ detectPlagiarism
        ⟨some ⟨200, some [⟨str "this abstract describes a related study on neural network training"⟩]⟩,
         fun _ _ => some [1/2]⟩
        (str "neural networks enable modern machine learning systems") ∧
      detectPlagiarism
        ⟨some ⟨200, some [⟨str "this abstract describes a related study on neural network training"⟩]⟩,
         fun _ _ => some [1/2]⟩
        (str "neural networks enable modern machine learning systems") ≤ 100) ∧
    (maxSimPct
        ⟨some ⟨200, some [⟨str "this abstract describes a related study on neural network training"⟩]⟩,
         fun _ _ => some [1/2]⟩
        (str "neural networks enable modern machine learning systems") < 10 →
      detectPlagiarism
        ⟨some ⟨200, some [⟨str "this abstract describes a related study on neural network training"⟩]⟩,
         fun _ _ => some [1/2]⟩
        (str "neural networks enable modern machine learning systems") = 0) := by
  apply detect_plagiarism_range_and_noise_floor
  intro l hl
  injection hl with h
  subst h
  intro s hs
  simp only [List.mem_singleton] at hs
  subst hs
  norm_num

/-- C4: `detect_plagiarism` converts every failure of its environment —
request timeout or exception (`response = none`), non-200 status, no usable
abstracts, or an exception inside the similarity computation — into the
neutral score 0 instead of raising. -/
theorem detect_plagiarism_failure_returns_zero (env : PlagEnv) (text : Str) :
    (env.response = none → detectPlagiarism env text = 0) ∧
    (∀ resp, env.response = some resp → resp.status ≠ 200 → detectPlagiarism env text = 0) ∧
    (abstractsOfEnv env = [] → detectPlagiarism env text = 0) ∧
    (env.sim text (abstractsOfEnv env) = none → detectPlagiarism env text = 0) := by
  refine ⟨?_, ?_, ?_, ?_⟩
  · intro hr
    unfold detectPlagiarism detectRun
    by_cases h3 : (commonWords text).length < 3
    · simp [h3]
    · simp [h3, hr]
  · intro r hrr hst
    unfold detectPlagiarism detectRun
    by_cases h3 : (commonWords text).length < 3
    · simp [h3]
    · have habs : abstractsFrom r = [] := by simp [abstractsFrom, hst]
      simp [h3, hrr, habs]
  · intro habs
    unfold detectPlagiarism detectRun
    by_cases h3 : (commonWords text).length < 3
    · simp [h3]
    · cases hr : env.response with
      | none => simp [h3]
      | some resp =>
        have habs2 : abstractsFrom resp = [] := by simpa [abstractsOfEnv, hr] using habs
        simp [h3, habs2]
  · intro hsim
    unfold detectPlagiarism detectRun
    by_cases h3 : (commonWords text).length < 3
    · simp [h3]
    · cases hr : env.response with
      | none => simp [h3]
      | some resp =>
        by_cases habs : abstractsFrom resp = []
        · simp [h3, habs]
        · have hs2 : env.sim text (abstractsFrom resp) = none := by
            simpa [abstractsOfEnv, hr] using hsim
          simp [h3, habs, hs2]

/-- Witness for C4: a timed-out search request yields score 0. -/
theorem detect_plagiarism_failure_returns_zero_witness :
    detectPlagiarism ⟨none, fun _ _ => none⟩
      (str "neural networks enable modern machine learning systems") = 0 :=
  (detect_plagiarism_failure_returns_zero ⟨none, fun _ _ => none⟩
    (str "neural networks enable modern machine learning systems")).1 rfl

/-- C10: when the input text has fewer than 3 tokens longer than 4
characters, `detect_plagiarism` returns 0 before issuing the external search
request. -/
theorem few_keywords_no_query (env : PlagEnv) (text : Str)
    (h : (commonWords text).length < 3) :
    detectRun env text = (0, false) := by
  simp [detectRun, h]

/-- Witness for C10 on a concrete short text. -/
theorem few_keywords_no_query_witness :
    detectRun ⟨some ⟨200, some []⟩, fun _ _ => some [1]⟩ (str "hi there you") = (0, false) :=
  few_keywords_no_query _ _ (by decide)

end Rpac

namespace Rpac

/-! ### Citations service (`citations_service.py`, class `CitationsService`)

`clean_citation` tries, in order: stripping leading `1. ` / `[1] ` numbering,
a double-quoted title, a `*italic*` title, the segment after `).` and before
the next period, the segment after a `(year)` marker, the first
non-journal-looking period-delimited segment among the 2nd/3rd long parts,
the first long part, and finally the raw (stripped) citation when longer
than 5 characters.  `validate_citations` queries the search API per entry
(abstracted by an oracle from cleaned titles to the optional list of result
titles, `none` modelling a request failure) and marks an entry valid when
some result title has word-overlap ratio above 0.3 with the cleaned title. -/

/-- ASCII lower-case letter (regex `[a-z]`). -/
def isAsciiLower (c : Char) : Bool := 'a' ≤ c && c ≤ 'z'

/-- `citation.replace("\n", " ")`. -/
def replaceNlSp (l : Str) : Str := l.map (fun c => if c == '\n' then ' ' else c)

/-- `re.sub(r'^\s*\d+\.\s*', '', l)`. -/
def stripLeadNum (l : Str) : Str :=
  let w := l.dropWhile isPySpace
  let d := w.takeWhile Char.isDigit
  if d = [] then l
  else
    match w.drop d.length with
    | '.' :: r => r.dropWhile isPySpace
    | _ => l

/-- `re.sub(r'^\s*\[\d+\]\s*', '', l)`. -/
def stripLeadBracket (l : Str) : Str :=
  match l.dropWhile isPySpace with
  | '[' :: r =>
    let d := r.takeWhile Char.isDigit
    if d = [] then l
    else
      match r.drop d.length with
      | ']' :: rest => rest.dropWhile isPySpace
      | _ => l
  | _ => l

/-- Leftmost match of `q([^q]+)q` for a delimiter character `q`: the first
nonempty delimited body (models `re.search(r'"([^"]+)"', ...)` and the
`*...*` variant). -/
def firstDelim (q : Char) : Str → Option Str
  | [] => none
  | c :: cs =>
    if c == q then
      let body := cs.takeWhile (fun x => !(x == q))
      if body ≠ [] ∧ body.length < cs.length then some body
      else firstDelim q cs
    else firstDelim q cs

/-- Group of `[\s]*([^.]+)\.` matched at the start of `rest`: the characters
up to the next period with leading whitespace shifted out of the group by the
greedy `[\s]*` (when the whole run is whitespace, backtracking leaves exactly
its last character in the group).  `none` when there is no nonempty run or no
terminating period. -/
def nonPeriodGroup (rest : Str) : Option Str :=
  let run := rest.takeWhile (fun c => !(c == '.'))
  if run = [] then none
  else if run.length = rest.length then none
  else
    let g := run.dropWhile isPySpace
    if g = [] then some [run.getLastD ' '] else some g

/-- Leftmost match of `re.search(r'\)\.[\s]*([^.]+)\.', l)`: group value. -/
def searchParenDot : Str → Option Str
  | [] => none
  | ')' :: '.' :: rest =>
    (match nonPeriodGroup rest with
     | some g => some g
     | none => searchParenDot ('.' :: rest))
  | _ :: cs => searchParenDot cs

/-- Match of `\(\d{4}[a-z]?\)` at the start of `rest`: returns the suffix
after the closing parenthesis. -/
def tryYearParen (rest : Str) : Option Str :=
  let ds := rest.take 4
  if ds.length = 4 ∧ ds.all Char.isDigit then
    match rest.drop 4 with
    | ')' :: r => some r
    | c :: ')' :: r => if isAsciiLower c then some r else none
    | _ => none
  else none

/-- Leftmost match of `re.search(r'\(\d{4}[a-z]?\)[\s]*([^.]+)\.', l)`:
group value. -/
def searchYearParen : Str → Option Str
  | [] => none
  | '(' :: rest =>
    (match tryYearParen rest with
     | some r =>
       (match nonPeriodGroup r with
        | some g => some g
        | none => searchYearParen rest)
     | none => searchYearParen rest)
  | _ :: cs => searchYearParen cs

/-- Python `l.split(sep)` for a one-character separator (keeps empties). -/
def splitOnChar (sep : Char) : Str → List Str
  | [] => [[]]
  | c :: cs =>
    if c == sep then [] :: splitOnChar sep cs
    else
      match splitOnChar sep cs with
      | [] => [[c]]
      | p :: ps => (c :: p) :: ps

/-- Match of `\d+\(\d+\)` at the start of `l`. -/
def digitParen (l : Str) : Bool :=
  let d := l.takeWhile Char.isDigit
  if d = [] then false
  else
    match l.drop d.length with
    | '(' :: r =>
      let d2 := r.takeWhile Char.isDigit
      if d2 = [] then false
      else
        match r.drop d2.length with
        | ')' :: _ => true
        | _ => false
    | _ => false

/-- One alternative of `(pp?\.|vol\.|\d+\(\d+\)|journal|proceedings)`
matching at the start of `l` (already lowered). -/
def journalAltAt (l : Str) : Bool :=
  leadsWith (str "pp.") l || leadsWith (str "p.") l || leadsWith (str "vol.") l ||
    digitParen l || leadsWith (str "journal") l || leadsWith (str "proceedings") l

/-- Scan for a `\b`-anchored journal-marker match; `prev` is the previous
character (the alternatives all start with word characters, so the boundary
holds exactly when `prev` is absent or not a word character). -/
def isJournalishAux : Option Char → Str → Bool
  | _, [] => false
  | prev, c :: cs =>
    ((match prev with | none => true | some p => !(isWordChar p)) && journalAltAt (c :: cs))
      || isJournalishAux (some c) cs

/-- `re.search(r'\b(pp?\.|vol\.|\d+\(\d+\)|journal|proceedings)', part, re.IGNORECASE)`. -/
def isJournalish (part : Str) : Bool := isJournalishAux none (pyLower part)

/-- Fallback tail of `clean_citation`: first long period-delimited part, else
the raw cleaned citation when longer than 5 characters, else empty. -/
def partsFallback (parts : List Str) (c2 : Str) : Str :=
  match parts with
  | p :: _ => p
  | [] => if 5 < c2.length then c2 else []

/-- Period-split branch of `clean_citation`: among the long stripped parts,
try the 2nd and 3rd for a non-journal-looking segment. -/
def cleanParts (c2 : Str) : Str :=
  let parts := ((splitOnChar '.' c2).map pyStrip).filter (fun p => 10 < p.length)
  if 2 ≤ parts.length then
    match ((parts.drop 1).take 2).find? (fun p => !(isJournalish p)) with
    | some p => p
    | none => partsFallback parts c2
  else partsFallback parts c2

/-- `(year)`-marker branch of `clean_citation`. -/
def cleanYearPattern (c2 : Str) : Str :=
  match searchYearParen c2 with
  | some g =>
    let t := pyStrip g
    if 10 < t.length then t else cleanParts c2
  | none => cleanParts c2

/-- `).`-marker branch of `clean_citation`. -/
def cleanParenDot (c2 : Str) : Str :=
  match searchParenDot c2 with
  | some g =>
    let t := pyStrip g
    if 10 < t.length then t else cleanYearPattern c2
  | none => cleanYearPattern c2

/-- `CitationsService.clean_citation`. -/
def cleanCitation (c : Str) : Str :=
  let c2 := stripLeadBracket (stripLeadNum (pyStrip (replaceNlSp c)))
  match firstDelim '"' c2 with
  | some t => t
  | none =>
    match firstDelim '*' c2 with
    | some t => t
    | none => cleanParenDot c2

/-- One entry of the list built by `validate_citations`. -/
structure CitationResult where
  reference : Str
  valid : Bool
  searchedTitle : Option Str
  reason : Option Str
  matchedTitle : Option Str
deriving DecidableEq

/-- Python `set(t.lower().split())`. -/
def wordSet (t : Str) : Finset Str := (pySplitWs (pyLower t)).toFinset

/-- `overlap / len(search_words)`: the word-overlap ratio between the cleaned
query title and one candidate result title. -/
def overlapFrac (q r : Str) : ℚ :=
  ((wordSet q ∩ wordSet r).card : ℚ) / ((wordSet q).card : ℚ)

/-- The per-candidate acceptance test of `validate_citations`: a nonempty
query word set and an overlap ratio above 0.3. -/
def titleMatch (ct r : Str) : Bool :=
  decide (0 < (wordSet ct).card) && decide ((3:ℚ)/10 < overlapFrac ct r)

/-- `validate_citations` on a single citation entry.  The `search` oracle maps
the cleaned title to the candidate result titles of the API response (at most
3 by the request's `limit`), or `none` for a request failure. -/
def validateOne (search : Str → Option (List Str)) (c : Str) : CitationResult :=
  let ct := cleanCitation c
  if ct.length < 5 then
    ⟨c, false, none, some (str "Could not extract title"), none⟩
  else
    match search ct with
    | none => ⟨c, false, some ct, some (str "API request failed"), none⟩
    | some results =>
      match results.find? (titleMatch ct) with
      | some r => ⟨c, true, some ct, none, some r⟩
      | none =>
        ⟨c, false, some ct, some (str "No matching paper found in Semantic Scholar"), none⟩

/-- `CitationsService.validate_citations`: the first 10 entries, each
validated independently. -/
def validateCitations (search : Str → Option (List Str)) (citations : List Str) :
    List CitationResult :=
  (citations.take 10).map (validateOne search)

/-- C3: an entry whose cleaned title is long enough and whose search query
succeeds is classified valid by `validate_citations` iff some candidate
result title has word-overlap ratio above 0.3 with the cleaned title;
otherwise it is classified not found (`valid = false`). -/
theorem validate_citations_valid_iff_overlap
    (search : Str → Option (List Str)) (cs : List Str) (c : Str) (results : List Str)
    (hlen : 5 ≤ (cleanCitation c).length)
    (hq : search (cleanCitation c) = some results) :
    validateCitations search cs = (cs.take 10).map (validateOne search) ∧
    ((validateOne search c).valid = true ↔
      ∃ r ∈ results, 0 < (wordSet (cleanCitation c)).card ∧
        (3:ℚ)/10 < overlapFrac (cleanCitation c) r) := by
  refine ⟨rfl, ?_⟩
  unfold validateOne
  have hlt : ¬ (cleanCitation c).length < 5 := by omega
  simp only [hlt, if_false, hq]
  cases hf : results.find? (titleMatch (cleanCitation c)) with
  | some r =>
    constructor
    · intro _
      have hpr := List.find?_some hf
      have hmr := List.mem_of_find?_eq_some hf
      simp only [titleMatch, Bool.and_eq_true, decide_eq_true_eq] at hpr
      exact ⟨r, hmr, hpr.1, hpr.2⟩
    · intro _
      rfl
  | none =>
    constructor
    · intro hv
      simp at hv
    · rintro ⟨r, hr, h1, h2⟩
      have hp : titleMatch (cleanCitation c) r = true := by
        simp only [titleMatch, Bool.and_eq_true, decide_eq_true_eq]
        exact ⟨h1, h2⟩
      have hnone := List.find?_eq_none.mp hf r hr
      simp [hp] at hnone

/-- Witness for C3 on a concrete citation and mocked search response. -/
theorem validate_citations_valid_iff_overlap_witness :
    ((validateOne (fun _ => some [str "deep learning methods for molecular text analysis"])
        (str "[1] \"Deep learning methods for text\" Journal of AI.")).valid = true ↔
      ∃ r ∈ [str "deep learning methods for molecular text analysis"],
        0 < (wordSet (cleanCitation
              (str "[1] \"Deep learning methods for text\" Journal of AI."))).card ∧
          (3:ℚ)/10 < overlapFrac
            (cleanCitation (str "[1] \"Deep learning methods for text\" Journal of AI.")) r) :=
  (validate_citations_valid_iff_overlap
    (fun _ => some [str "deep learning methods for molecular text analysis"])
    []
    (str "[1] \"Deep learning methods for text\" Journal of AI.")
    [str "deep learning methods for molecular text analysis"]
    (by decide) rfl).2

/-- C9: with a fixed (mocked) search response per queried title,
`validate_citations` is a deterministic, idempotent function of its input
list: any two oracles that agree on every cleaned title produce identical
outputs, so re-running yields the same classification for every entry. -/
theorem validate_citations_deterministic
    (s₁ s₂ : Str → Option (List Str)) (cs : List Str)
    (hagree : ∀ c ∈ cs, s₁ (cleanCitation c) = s₂ (cleanCitation c)) :
    validateCitations s₁ cs = validateCitations s₂ cs := by
  unfold validateCitations
  apply List.map_congr_left
  intro c hc
  have hc' : c ∈ cs := List.mem_of_mem_take hc
  simp only [validateOne, hagree c hc']

/-- Witness for C9: two syntactically different but agreeing oracles. -/
theorem validate_citations_deterministic_witness :
    validateCitations (fun _ => some []) [str "Smith J. A longer study of systems. 2020."] =
      validateCitations (fun t => some (List.take 0 [t]))
        [str "Smith J. A longer study of systems. 2020."] :=
  validate_citations_deterministic _ _ _ (fun _ _ => rfl)

end Rpac

namespace Rpac

/-! ### Critique service (`critique_service.py`, class `CritiqueService`)

`critique_paper` merges the dictionaries returned by the advanced analysis
methods; the top-level key set of its result is input-independent and is
recorded in `critiquePaperKeys`.  Bias scoring
(`_detect_bias_comprehensive`) starts from 100 and subtracts 10 per matched
bias-indicator term, clamping at 0.  The legacy `methodology_issues` field is
produced only by orphaned dead code (a method body stranded after the
`return` of `_check_statistical_assumptions`), so it never appears in the
result of `critique_paper`. -/

/-- `self.methodology_frameworks`. -/
def methodologyFrameworks : List (String × List Str) :=
  [("experimental",
    [str "experiment", str "trial", str "randomized", str "control group",
     str "treatment", str "intervention"]),
   ("survey",
    [str "survey", str "questionnaire", str "cross-sectional", str "longitudinal",
     str "cohort"]),
   ("qualitative",
    [str "interview", str "focus group", str "ethnography", str "case study",
     str "grounded theory", str "thematic analysis"]),
   ("quantitative",
    [str "statistical", str "regression", str "correlation", str "anova",
     str "t-test", str "chi-square"]),
   ("mixed_methods",
    [str "mixed methods", str "triangulation", str "concurrent", str "sequential"]),
   ("systematic_review",
    [str "systematic review", str "meta-analysis", str "literature review",
     str "scoping review"])]

/-- `self.bias_indicators`. -/
def biasIndicators : List (String × List Str) :=
  [("selection_bias",
    [str "convenience sample", str "voluntary", str "self-selected", str "opted in"]),
   ("confirmation_bias",
    [str "as expected", str "predictably", str "obviously", str "naturally"]),
   ("publication_bias",
    [str "negative results", str "null findings", str "non-significant"]),
   ("reporting_bias",
    [str "data not shown", str "results omitted", str "selective reporting"])]

/-- `self.methodology_keywords`: all framework keywords, flattened. -/
def methodologyKeywords : List Str := (methodologyFrameworks.map Prod.snd).flatten

/-- The methodology keywords found in the lowered text. -/
def foundMethodologyTerms (text : Str) : List Str :=
  methodologyKeywords.filter (fun kw => containsSeg kw (pyLower text))

/-- The research frameworks detected by `_analyze_methodology_advanced`. -/
def frameworksDetectedIn (text : Str) : List String :=
  (methodologyFrameworks.filter
    (fun fr => fr.2.any (fun kw => containsSeg kw (pyLower text)))).map Prod.fst

/-- Total number of bias-indicator terms found across the four bias types. -/
def biasFoundTotal (text : Str) : ℕ :=
  (biasIndicators.map
    (fun bi => (bi.2.filter (fun t => containsSeg t (pyLower text))).length)).sum

/-- `bias_score` of `_detect_bias_comprehensive`: `max(0, 100 - 10·found)`. -/
def biasScore (text : Str) : ℤ := max 0 (100 - 10 * (biasFoundTotal text : ℤ))

/-- The fields of `critique_paper`'s result modelled here. -/
structure CritiquePaperResult where
  frameworksDetected : List String
  biasScore : ℤ

/-- `CritiqueService.critique_paper`, restricted to the modelled fields. -/
def critiquePaper (text : Str) : CritiquePaperResult :=
  ⟨frameworksDetectedIn text, biasScore text⟩

/-- The input-independent top-level key set of `critique_paper`'s result
dictionary, in construction order. -/
def critiquePaperKeys : List String :=
  ["methodology_frameworks_detected", "framework_analysis", "sample_size_analysis",
   "statistical_rigor", "methodology_quality_score", "claim_strength_analysis",
   "evidence_support_ratio", "logical_flow_indicators", "argument_quality_score",
   "bias_types_analysis", "language_objectivity", "statistical_bias_indicators",
   "overall_bias_risk", "bias_score", "validity_analysis", "overall_validity_score",
   "validity_grade", "writing_quality_analysis", "statistical_analysis",
   "citation_network_analysis", "literature_analysis", "advanced_critique_features",
   "overall_assessment", "academic_recommendations", "quality_grade"]

/-- C5 (failing input): on a text with zero bias-term matches and three
methodology-term matches, `critique_paper` does give `bias_score = 100 ≥ 85`,
but its result has no `methodology_issues` key at all — the method that
would produce it survives only as unreachable dead code after the `return`
of `_check_statistical_assumptions`. -/
theorem critique_missing_methodology_issues_field :
    biasFoundTotal (str "We conducted an experiment, a survey, and an interview.") = 0 ∧
    3 ≤ (foundMethodologyTerms
          (str "We conducted an experiment, a survey, and an interview.")).length ∧
    85 ≤ (critiquePaper
          (str "We conducted an experiment, a survey, and an interview.")).biasScore ∧
    "methodology_issues" ∉ critiquePaperKeys := by
  refine ⟨by decide, by decide, by decide, by decide⟩

/-! ### PDF service and the `/analyze` route (`pdf_service.py`,
`routes/simple_analyze.py`)

`process_uploaded_pdf` rejects extracted text whose stripped length is below
50 characters by raising `ValueError`; `analyze_paper` catches it and returns
a 500 error without running any downstream stage.  The external summarizer
model is abstracted by an oracle (`none` models an exception during model
inference, handled by `summarize_text`'s fallback). -/

/-- `'. '.join` of Python (used by the summarizer's exception fallback). -/
def joinDotSpace : List Str → Str
  | [] => []
  | [s] => s
  | s :: t :: rest => s ++ '.' :: ' ' :: joinDotSpace (t :: rest)

/-- `SummarizerService.summarize_text`: truncate to 1024 characters, call the
model; on failure fall back to the first three period-separated pieces of the
original text. -/
def serviceSummarize (model : Str → Option Str) (text : Str) : Str :=
  let textForSummary := text.take 1024
  match model textForSummary with
  | some s => s
  | none => joinDotSpace ((splitOnChar '.' text).take 3) ++ ['.']

/-- `PDFService.process_uploaded_pdf` after text extraction: reject text
shorter than 50 characters once stripped. -/
def processUploadedPdf (text : Str) : Except Str Str :=
  if (pyStrip text).length < 50 then
    Except.error (str "No readable text found in PDF or text too short")
  else Except.ok text

/-- `CritiqueService.count_words`: `len(re.findall(r'\b\w+\b', text))`. -/
def countWords (text : Str) : ℕ := (splitRuns isWordChar text).length

/-- The section-header patterns searched by `extract_citations`, in order. -/
def refsStartOf (text : Str) : Option ℕ :=
  let tl := pyLower text
  match firstIdxOf (str "references") tl with
  | some i => some i
  | none =>
    match firstIdxOf (str "bibliography") tl with
    | some i => some i
    | none =>
      match firstIdxOf (str "works cited") tl with
      | some i => some i
      | none => firstIdxOf (str "citations") tl

/-- Length of a numbered-reference marker `\[\d+\]` at the head of `l`. -/
def markerLen (l : Str) : Option ℕ :=
  match l with
  | '[' :: r =>
    let d := r.takeWhile Char.isDigit
    if d = [] then none
    else
      match r.drop d.length with
      | ']' :: _ => some (d.length + 2)
      | _ => none
  | _ => none

/-- Positions of all `\[\d+\]` markers in the text (markers cannot overlap). -/
def markerPosAux : ℕ → Str → List ℕ
  | _, [] => []
  | i, c :: cs =>
    if (markerLen (c :: cs)).isSome then i :: markerPosAux (i + 1) cs
    else markerPosAux (i + 1) cs

/-- All marker start positions of `re.findall(r'\[\d+\].*?(?=\[\d+\]|$)', ...)`. -/
def markerPositions (text : Str) : List ℕ := markerPosAux 0 text

/-- Segments of the text from each marker start to the next (the last one
running to the end of the text). -/
def segsFrom (text : Str) : ℕ → List ℕ → List Str
  | a, [] => [text.drop a]
  | a, b :: bs => ((text.drop a).take (b - a)) :: segsFrom text b bs

/-- The matches of `re.findall(r'\[\d+\].*?(?=\[\d+\]|$)', text, re.DOTALL)`. -/
def numberedRefs (text : Str) : List Str :=
  match markerPositions text with
  | [] => []
  | p :: ps => segsFrom text p ps

/-- `CitationsService.extract_citations`. -/
def extractCitations (text : Str) : List Str :=
  match refsStartOf text with
  | none => (numberedRefs text).take 10
  | some pos =>
    let refText := text.drop pos
    let refLines := (splitOnChar '\n' refText).take 20
    ((refLines.map pyStrip).filter (fun line =>
      20 < line.length ∧
      leadsWith (str "references") (pyLower line) = false ∧
      leadsWith (str "bibliography") (pyLower line) = false)).take 10

/-- The downstream stages of the `/analyze` pipeline. -/
inductive Stage where
  | summarizer
  | plagiarism
  | citations
  | critique
deriving DecidableEq

/-- Environment of the `/analyze` route: the summarizer model oracle, the
plagiarism-search environment, and the citation-search oracle. -/
structure AnalyzeEnv where
  model : Str → Option Str
  plag : PlagEnv
  search : Str → Option (List Str)

/-- The JSON response assembled by `analyze_paper` (the `fact_check.facts`
placeholder is always empty). -/
structure AnalyzeResponse where
  summary : Str
  plagiarism : ℚ
  citations : List CitationResult
  factCheckFacts : List Str
  wordCount : ℕ
  plagiarismPercent : ℚ
  citationsCount : ℕ
deriving DecidableEq

/-- `analyze_paper` of `routes/simple_analyze.py`: on extraction failure a
500 error and no stage runs; otherwise the four stages run in order and the
response is assembled.  The second component records the invoked stages. -/
def analyzePaper (env : AnalyzeEnv) (text : Str) :
    Except Str AnalyzeResponse × List Stage :=
  match processUploadedPdf text with
  | Except.error e => (Except.error (str "Analysis failed: " ++ e), [])
  | Except.ok t =>
    let summary := serviceSummarize env.model t
    let plagScore := detectPlagiarism env.plag t
    let citationResults := validateCitations env.search (extractCitations t)
    (Except.ok
      ⟨summary, plagScore, citationResults, [], countWords t, plagScore,
        citationResults.length⟩,
      [Stage.summarizer, Stage.plagiarism, Stage.citations, Stage.critique])

/-- C2: when the extracted text is shorter than 50 characters after
stripping, the analyze pipeline rejects with the "too short" error and
invokes none of the downstream stages. -/
theorem analyze_short_text_rejected (env : AnalyzeEnv) (text : Str)
    (h : (pyStrip text).length < 50) :
    analyzePaper env text =
      (Except.error
        (str "Analysis failed: No readable text found in PDF or text too short"), []) := by
  unfold analyzePaper processUploadedPdf
  simp only [h, if_true]
  have hmsg : str "Analysis failed: " ++ str "No readable text found in PDF or text too short" =
      str "Analysis failed: No readable text found in PDF or text too short" := by decide
  rw [hmsg]

/-- Witness for C2 on a concrete short text. -/
theorem analyze_short_text_rejected_witness :
    analyzePaper ⟨fun _ => none, ⟨none, fun _ _ => none⟩, fun _ => none⟩ (str "hi") =
      (Except.error
        (str "Analysis failed: No readable text found in PDF or text too short"), []) :=
  analyze_short_text_rejected _ _ (by decide)

/-- C6: on a text with no detectable references section (none of the four
header patterns occurs and there is no `[n]` marker), `extract_citations`
returns `[]`, and the analyze report then has `citations = []` and
`stats.citations_count = 0`. -/
theorem no_references_empty_citations (env : AnalyzeEnv) (text : Str)
    (h50 : 50 ≤ (pyStrip text).length)
    (hpat : refsStartOf text = none)
    (hnum : markerPositions text = []) :
    extractCitations text = [] ∧
    ∃ resp, (analyzePaper env text).1 = Except.ok resp ∧
      resp.citations = [] ∧ resp.citationsCount = 0 := by
  have hext : extractCitations text = [] := by
    unfold extractCitations
    rw [hpat]
    simp [numberedRefs, hnum]
  refine ⟨hext, ?_⟩
  have hlen : ¬ (pyStrip text).length < 50 := by omega
  unfold analyzePaper processUploadedPdf
  simp only [hlen, if_false]
  exact ⟨_, rfl, by simp [hext, validateCitations], by simp [hext, validateCitations]⟩

/-- Witness for C6 on a concrete reference-free text. -/
theorem no_references_empty_citations_witness :
    extractCitations
        (str "This paper studies the behavior of long documents over many pages of prose.") = [] ∧
    ∃ resp,
      (analyzePaper ⟨fun _ => none, ⟨none, fun _ _ => none⟩, fun _ => none⟩
          (str "This paper studies the behavior of long documents over many pages of prose.")).1 =
        Except.ok resp ∧
      resp.citations = [] ∧ resp.citationsCount = 0 :=
  no_references_empty_citations _ _ (by decide) (by decide) (by decide)

end Rpac

namespace Rpac

/-! ### Offline internal-repetition scorer (`plagiarism_service.py`, legacy
functions `_sentences`, `_tokenize`, `_ngrams`, `check_plagiarism`, `check`)

`_sentences` splits on `(?<=[.!?])\s+` (whitespace runs preceded by sentence
punctuation); `check_plagiarism` guards on text length ≥ 200 and at least 5
sentences longer than 25 characters, then scores internal repetition with
7-word shingles; `check` converts the 0..1 score to an integer percentage. -/

/-- Sentence punctuation `[.!?]`. -/
def isSentPunct (c : Char) : Bool := c == '.' || c == '!' || c == '?'

/-- Head of the reversed accumulator: the last consumed character. -/
def headPunct : Str → Bool
  | [] => false
  | c :: _ => isSentPunct c

/-- Single-pass engine for `re.split(r'(?<=[.!?])\s+', text)`: `acc` is the
reversed current piece, the flag records being inside a separator
(whitespace) run.  A whitespace character splits exactly when the previously
consumed character was sentence punctuation. -/
def sentAux : Str → Str → Bool → List Str
  | [], _, true => [[]]
  | [], acc, false => [acc.reverse]
  | c :: cs, acc, true =>
    if isPySpace c then sentAux cs acc true else sentAux cs [c] false
  | c :: cs, acc, false =>
    if isPySpace c && headPunct acc then acc.reverse :: sentAux cs [] true
    else sentAux cs (c :: acc) false

/-- `_sentences`: split, strip, drop empty pieces. -/
def sentencesC7 (text : Str) : List Str :=
  ((sentAux text [] false).map pyStrip).filter (fun s => 0 < s.length)

/-- The apostrophe character (allowed by `_tokenize`'s character class). -/
def apos : Char := Char.ofNat 39

/-- A character of the class `[A-Za-z0-9']`. -/
def isTokChar (c : Char) : Bool := c.isAlphanum || c == apos

/-- `_tokenize`: `re.findall(r"[A-Za-z0-9']+", s.lower())`. -/
def tokenizeC7 (s : Str) : List Str := splitRuns isTokChar (pyLower s)

/-- `_ngrams`: space-joined `n`-grams of a token list. -/
def ngrams (n : ℕ) (toks : List Str) : List Str :=
  (List.range (toks.length + 1 - n)).map (fun i => joinSpace ((toks.drop i).take n))

/-- The sentences longer than 25 characters that feed the shingle counter. -/
def longSentences (text : Str) : List Str :=
  (sentencesC7 text).filter (fun s => 25 < s.length)

/-- All 7-word shingles of the document's own (long) sentences, with
multiplicity (the Counter of `check_plagiarism` as a multiset). -/
def shinglesOf (text : Str) : List Str :=
  ((longSentences text).map (fun s => ngrams 7 (tokenizeC7 s))).flatten

/-- `sum(c for c in all_shingles.values() if c > 1)`: the number of shingle
occurrences whose shingle value occurs more than once. -/
def dupCount (l : List Str) : ℕ := (l.filter (fun v => 1 < l.count v)).length

/-- `sum(all_shingles.values())`: the total number of shingle occurrences. -/
def totalCount (l : List Str) : ℕ := l.length

/-- `check_plagiarism(text)["plagiarism_score"]`: the 0..1 repetition score. -/
def checkPlagiarismScore (text : Str) : ℚ :=
  if text.length < 200 then 0
  else if (longSentences text).length < 5 then 0
  else
    let sh := shinglesOf text
    if sh = [] then 0
    else min 1 ((dupCount sh : ℚ) / ((max 1 (totalCount sh) : ℕ) : ℚ))

/-- Legacy `check(text)`: `int(round(100 * score))`, the integer percent. -/
def check (text : Str) : ℤ := roundHalfEven (100 * checkPlagiarismScore text)

lemma dupCount_le_totalCount (l : List Str) : dupCount l ≤ totalCount l :=
  List.length_filter_le _ l

lemma checkPlagiarismScore_bounds (t : Str) :
    0 ≤ checkPlagiarismScore t ∧ checkPlagiarismScore t ≤ 1 := by
  unfold checkPlagiarismScore
  split
  · norm_num
  · split
    · norm_num
    · by_cases hsh : shinglesOf t = []
      · simp [hsh]
      · simp only [hsh, if_false]
        constructor
        · refine le_min (by norm_num) ?_
          positivity
        · exact min_le_left _ _

set_option maxRecDepth 100000 in
/-- C7 counterexample: a 139-character text made of five identical long
sentences.  Its shingle formula gives `dup/total × 100 = 100`, but the
length-200 guard of `check_plagiarism` makes the reported score 0, so the
score does not equal the shingle formula on every input. -/
theorem internal_repetition_formula_counterexample :
    check (str "aa aa aa aa aa aa aa aa aa. aa aa aa aa aa aa aa aa aa. aa aa aa aa aa aa aa aa aa. aa aa aa aa aa aa aa aa aa. aa aa aa aa aa aa aa aa aa.") = 0 ∧
    (dupCount (shinglesOf (str "aa aa aa aa aa aa aa aa aa. aa aa aa aa aa aa aa aa aa. aa aa aa aa aa aa aa aa aa. aa aa aa aa aa aa aa aa aa. aa aa aa aa aa aa aa aa aa.")) : ℚ) /
        (totalCount (shinglesOf (str "aa aa aa aa aa aa aa aa aa. aa aa aa aa aa aa aa aa aa. aa aa aa aa aa aa aa aa aa. aa aa aa aa aa aa aa aa aa. aa aa aa aa aa aa aa aa aa.")) : ℚ) * 100 = 100 ∧
    ¬ ((check (str "aa aa aa aa aa aa aa aa aa. aa aa aa aa aa aa aa aa aa. aa aa aa aa aa aa aa aa aa. aa aa aa aa aa aa aa aa aa. aa aa aa aa aa aa aa aa aa.") : ℚ) =
      (dupCount (shinglesOf (str "aa aa aa aa aa aa aa aa aa. aa aa aa aa aa aa aa aa aa. aa aa aa aa aa aa aa aa aa. aa aa aa aa aa aa aa aa aa. aa aa aa aa aa aa aa aa aa.")) : ℚ) /
        (totalCount (shinglesOf (str "aa aa aa aa aa aa aa aa aa. aa aa aa aa aa aa aa aa aa. aa aa aa aa aa aa aa aa aa. aa aa aa aa aa aa aa aa aa. aa aa aa aa aa aa aa aa aa.")) : ℚ) * 100) := by
  have hd : dupCount (shinglesOf (str "aa aa aa aa aa aa aa aa aa. aa aa aa aa aa aa aa aa aa. aa aa aa aa aa aa aa aa aa. aa aa aa aa aa aa aa aa aa. aa aa aa aa aa aa aa aa aa.")) = 15 := by decide
  have ht : totalCount (shinglesOf (str "aa aa aa aa aa aa aa aa aa. aa aa aa aa aa aa aa aa aa. aa aa aa aa aa aa aa aa aa. aa aa aa aa aa aa aa aa aa. aa aa aa aa aa aa aa aa aa.")) = 15 := by decide
  have hlen : (str "aa aa aa aa aa aa aa aa aa. aa aa aa aa aa aa aa aa aa. aa aa aa aa aa aa aa aa aa. aa aa aa aa aa aa aa aa aa. aa aa aa aa aa aa aa aa aa.").length < 200 := by decide
  have hscore : checkPlagiarismScore (str "aa aa aa aa aa aa aa aa aa. aa aa aa aa aa aa aa aa aa. aa aa aa aa aa aa aa aa aa. aa aa aa aa aa aa aa aa aa. aa aa aa aa aa aa aa aa aa.") = 0 := by
    unfold checkPlagiarismScore
    rw [if_pos hlen]
  have hcheck : check (str "aa aa aa aa aa aa aa aa aa. aa aa aa aa aa aa aa aa aa. aa aa aa aa aa aa aa aa aa. aa aa aa aa aa aa aa aa aa. aa aa aa aa aa aa aa aa aa.") = 0 := by
    unfold check
    rw [hscore, mul_zero]
    unfold roundHalfEven
    norm_num
  refine ⟨hcheck, ?_, ?_⟩
  · rw [hd, ht]
    norm_num
  · rw [hcheck, hd, ht]
    norm_num

/-- C7 amended: the reported percent always lies in `[0, 100]`, and for a
text passing the guards (length ≥ 200, at least 5 sentences longer than 25
characters) the 0..1 score times 100 equals
`dup-shingle-count / max(1, total-shingle-count) × 100`; on all other texts
the score is 0 by the guards. -/
theorem internal_repetition_amended (t : Str) :
    (0 ≤ check t ∧ check t ≤ 100) ∧
    (200 ≤ t.length → 5 ≤ (longSentences t).length →
      100 * checkPlagiarismScore t =
        100 * (dupCount (shinglesOf t) : ℚ) / ((max 1 (totalCount (shinglesOf t)) : ℕ) : ℚ)) := by
  obtain ⟨hs0, hs1⟩ := checkPlagiarismScore_bounds t
  constructor
  · constructor
    · exact roundHalfEven_nonneg (by linarith)
    · exact roundHalfEven_le (by push_cast; linarith)
  · intro h200 h5
    unfold checkPlagiarismScore
    have h200' : ¬ t.length < 200 := by omega
    have h5' : ¬ (longSentences t).length < 5 := by omega
    simp only [h200', if_false, h5']
    by_cases hsh : shinglesOf t = []
    · simp [hsh, totalCount, dupCount]
    · simp only [hsh, if_false]
      have htot : 1 ≤ totalCount (shinglesOf t) := by
        unfold totalCount
        exact List.length_pos.mpr hsh
      have hmax : max 1 (totalCount (shinglesOf t)) = totalCount (shinglesOf t) := by omega
      rw [hmax]
      have htpos : (0:ℚ) < (totalCount (shinglesOf t) : ℚ) := by exact_mod_cast htot
      have hdiv : (dupCount (shinglesOf t) : ℚ) / (totalCount (shinglesOf t) : ℚ) ≤ 1 := by
        rw [div_le_one htpos]
        exact_mod_cast dupCount_le_totalCount (shinglesOf t)
      rw [min_eq_right hdiv]
      ring

set_option maxRecDepth 100000 in
/-- Witness for C7's amended theorem on a 223-character text passing both
guards. -/
theorem internal_repetition_amended_witness :
    (0 ≤ check (str "aa aa aa aa aa aa aa aa aa. aa aa aa aa aa aa aa aa aa. aa aa aa aa aa aa aa aa aa. aa aa aa aa aa aa aa aa aa. aa aa aa aa aa aa aa aa aa. aa aa aa aa aa aa aa aa aa. aa aa aa aa aa aa aa aa aa. aa aa aa aa aa aa aa aa aa.") ∧
      check (str "aa aa aa aa aa aa aa aa aa. aa aa aa aa aa aa aa aa aa. aa aa aa aa aa aa aa aa aa. aa aa aa aa aa aa aa aa aa. aa aa aa aa aa aa aa aa aa. aa aa aa aa aa aa aa aa aa. aa aa aa aa aa aa aa aa aa. aa aa aa aa aa aa aa aa aa.") ≤ 100) ∧
    100 * checkPlagiarismScore (str "aa aa aa aa aa aa aa aa aa. aa aa aa aa aa aa aa aa aa. aa aa aa aa aa aa aa aa aa. aa aa aa aa aa aa aa aa aa. aa aa aa aa aa aa aa aa aa. aa aa aa aa aa aa aa aa aa. aa aa aa aa aa aa aa aa aa. aa aa aa aa aa aa aa aa aa.") =
      100 * (dupCount (shinglesOf (str "aa aa aa aa aa aa aa aa aa. aa aa aa aa aa aa aa aa aa. aa aa aa aa aa aa aa aa aa. aa aa aa aa aa aa aa aa aa. aa aa aa aa aa aa aa aa aa. aa aa aa aa aa aa aa aa aa. aa aa aa aa aa aa aa aa aa. aa aa aa aa aa aa aa aa aa.")) : ℚ) /
        ((max 1 (totalCount (shinglesOf (str "aa aa aa aa aa aa aa aa aa. aa aa aa aa aa aa aa aa aa. aa aa aa aa aa aa aa aa aa. aa aa aa aa aa aa aa aa aa. aa aa aa aa aa aa aa aa aa. aa aa aa aa aa aa aa aa aa. aa aa aa aa aa aa aa aa aa. aa aa aa aa aa aa aa aa aa."))) : ℕ) : ℚ) :=
  ⟨(internal_repetition_amended _).1,
   (internal_repetition_amended _).2 (by decide) (by decide)⟩

end Rpac

namespace Rpac

/-! ### Summarizer fallback (`summarizer_service.py`, legacy `summarize_text`,
`_summarize_heuristic`, `_split_into_sentences`)

With the external HuggingFace model unavailable, `_summarize_with_hf` raises
while loading the model, and `summarize_text` falls back to the extractive
heuristic on the full text.  `_split_into_sentences` splits on `[.!?]+` and
keeps stripped pieces longer than 10 characters; the heuristic scores the
sentences (at least 5 words), sorts them stably by descending score (the
positional thresholds `0.2`/`0.8` are idealised as exact rationals), selects
up to a ~200-word budget, and reassembles the selected sentences in original
document order. -/

/-- Single-pass engine for `re.split(r'[.!?]+', text)`: `acc` is the reversed
current piece, the flag records being inside a separator run (empty pieces
between consecutive separators are not produced, boundary empties are). -/
def splitSepsAux (p : Char → Bool) : Str → Str → Bool → List Str
  | [], _, true => [[]]
  | [], acc, false => [acc.reverse]
  | c :: cs, acc, true =>
    if p c then splitSepsAux p cs acc true else splitSepsAux p cs [c] false
  | c :: cs, acc, false =>
    if p c then acc.reverse :: splitSepsAux p cs [] true
    else splitSepsAux p cs (c :: acc) false

/-- `re.split(r'[.!?]+', text)` (with `p = isSentPunct`). -/
def splitSeps (p : Char → Bool) (l : Str) : List Str := splitSepsAux p l [] false

/-- `u` occurs as a contiguous substring of `l`. -/
def SubSeg (u l : Str) : Prop := ∃ x y, l = x ++ u ++ y

lemma subSeg_trans {u v w : Str} (h1 : SubSeg u v) (h2 : SubSeg v w) : SubSeg u w := by
  obtain ⟨x1, y1, rfl⟩ := h1
  obtain ⟨x2, y2, rfl⟩ := h2
  exact ⟨x2 ++ x1, y1 ++ y2, by simp [List.append_assoc]⟩

lemma splitSepsAux_subSeg (p : Char → Bool) :
    ∀ (l acc : Str),
      (∀ s ∈ splitSepsAux p l acc false, SubSeg s (acc.reverse ++ l)) ∧
      (∀ s ∈ splitSepsAux p l acc true, SubSeg s l) := by
  intro l
  induction l with
  | nil =>
    intro acc
    refine ⟨?_, ?_⟩
    · intro s hs
      simp only [splitSepsAux, List.mem_singleton] at hs
      subst hs
      exact ⟨[], [], by simp⟩
    · intro s hs
      simp only [splitSepsAux, List.mem_singleton] at hs
      subst hs
      exact ⟨[], [], by simp⟩
  | cons c cs ih =>
    intro acc
    refine ⟨?_, ?_⟩
    · intro s hs
      by_cases hp : p c
      · simp only [splitSepsAux, hp, if_true, List.mem_cons] at hs
        rcases hs with rfl | hs
        · exact ⟨[], c :: cs, by simp⟩
        · obtain ⟨x, y, hxy⟩ := (ih []).2 s hs
          exact ⟨acc.reverse ++ c :: x, y, by simp [hxy, List.append_assoc]⟩
      · simp only [splitSepsAux, hp, if_false] at hs
        obtain ⟨x, y, hxy⟩ := (ih (c :: acc)).1 s hs
        refine ⟨x, y, ?_⟩
        simpa [List.reverse_cons, List.append_assoc] using hxy
    · intro s hs
      by_cases hp : p c
      · simp only [splitSepsAux, hp, if_true] at hs
        obtain ⟨x, y, hxy⟩ := (ih acc).2 s hs
        exact ⟨c :: x, y, by simp [hxy]⟩
      · simp only [splitSepsAux, hp, if_false] at hs
        obtain ⟨x, y, hxy⟩ := (ih [c]).1 s hs
        refine ⟨x, y, ?_⟩
        simpa using hxy

lemma splitSeps_subSeg (p : Char → Bool) (l : Str) :
    ∀ s ∈ splitSeps p l, SubSeg s l := by
  intro s hs
  have := (splitSepsAux_subSeg p l []).1 s hs
  simpa using this

lemma pyStrip_subSeg (s : Str) : SubSeg (pyStrip s) s := by
  refine ⟨s.takeWhile isPySpace,
    ((s.dropWhile isPySpace).reverse.takeWhile isPySpace).reverse, ?_⟩
  have h2 : s.dropWhile isPySpace =
      ((s.dropWhile isPySpace).reverse.dropWhile isPySpace).reverse ++
        ((s.dropWhile isPySpace).reverse.takeWhile isPySpace).reverse := by
    calc s.dropWhile isPySpace = (s.dropWhile isPySpace).reverse.reverse :=
          (List.reverse_reverse _).symm
    _ = ((s.dropWhile isPySpace).reverse.takeWhile isPySpace ++
          (s.dropWhile isPySpace).reverse.dropWhile isPySpace).reverse := by
          rw [List.takeWhile_append_dropWhile]
    _ = ((s.dropWhile isPySpace).reverse.dropWhile isPySpace).reverse ++
          ((s.dropWhile isPySpace).reverse.takeWhile isPySpace).reverse := by
          rw [List.reverse_append]
  calc s = s.takeWhile isPySpace ++ s.dropWhile isPySpace :=
        (List.takeWhile_append_dropWhile isPySpace s).symm
  _ = s.takeWhile isPySpace ++
        (((s.dropWhile isPySpace).reverse.dropWhile isPySpace).reverse ++
          ((s.dropWhile isPySpace).reverse.takeWhile isPySpace).reverse) := by rw [← h2]
  _ = s.takeWhile isPySpace ++ pyStrip s ++
        ((s.dropWhile isPySpace).reverse.takeWhile isPySpace).reverse := by
        rw [pyStrip, List.append_assoc]

/-- `_split_into_sentences`: stripped pieces longer than 10 characters. -/
def sentencesOfC8 (text : Str) : List Str :=
  ((splitSeps isSentPunct text).map pyStrip).filter (fun s => 10 < s.length)

lemma sentencesOfC8_subSeg (text : Str) : ∀ s ∈ sentencesOfC8 text, SubSeg s text := by
  intro s hs
  have hs2 := List.mem_of_mem_filter hs
  obtain ⟨piece, hp, rfl⟩ := List.mem_map.mp hs2
  exact subSeg_trans (pyStrip_subSeg piece) (splitSeps_subSeg _ _ piece hp)

/-- `important_keywords` of `_summarize_heuristic`. -/
def importantKeywords : List Str :=
  [str "study", str "result", str "method", str "conclude", str "finding",
   str "research", str "analysis", str "experiment", str "data",
   str "significant", str "demonstrate", str "propose", str "novel",
   str "approach", str "framework", str "model", str "algorithm"]

/-- Python `sentences.index(sentence)`: index of the first occurrence. -/
def idxOfFirst (s : Str) : List Str → ℕ
  | [] => 0
  | t :: ts => if t = s then 0 else idxOfFirst s ts + 1

/-- The per-sentence score of `_summarize_heuristic`: word-count band bonus,
keyword hits, and a positional bonus for the first or last fifth of the
document. -/
def sentScore (sents : List Str) (s : Str) : ℕ :=
  let wc := (pySplitWs s).length
  let base := if 15 ≤ wc ∧ wc ≤ 30 then 2 else if 10 ≤ wc ∧ wc ≤ 40 then 1 else 0
  let kw := (importantKeywords.filter (fun k => containsSeg k (pyLower s))).length
  let idx := idxOfFirst s sents
  let pos :=
    if (idx : ℚ) < (sents.length : ℚ) * (1/5) ∨ (sents.length : ℚ) * (4/5) < (idx : ℚ)
    then 1 else 0
  base + kw + pos

/-- Stable descending insertion (keeps earlier elements before equal
scores), modelling Python's stable `sort(key=..., reverse=True)`. -/
def insertDesc (x : Str × ℕ) : List (Str × ℕ) → List (Str × ℕ)
  | [] => [x]
  | y :: ys => if y.2 ≤ x.2 then x :: y :: ys else y :: insertDesc x ys

/-- Stable sort by descending score. -/
def sortByScoreDesc : List (Str × ℕ) → List (Str × ℕ)
  | [] => []
  | x :: xs => insertDesc x (sortByScoreDesc xs)

/-- The selection loop of `_summarize_heuristic`: add sentences while the
200-word budget allows, stop at 7 sentences or 180 words. -/
def selectAux : List (Str × ℕ) → List Str → ℕ → List Str
  | [], acc, _ => acc
  | (s, _) :: rest, acc, tw =>
    let w := (pySplitWs s).length
    let acc2 := if tw + w ≤ 200 then acc ++ [s] else acc
    let tw2 := if tw + w ≤ 200 then tw + w else tw
    if 7 ≤ acc2.length ∨ 180 ≤ tw2 then acc2 else selectAux rest acc2 tw2

/-- The `selected` list of `_summarize_heuristic` (with its empty-selection
fallback to the first three sentences). -/
def heuristicSelected (text : Str) : List Str :=
  let sents := sentencesOfC8 text
  let scored := (sents.filter (fun s => ¬ (pySplitWs s).length < 5)).map
    (fun s => (s, sentScore sents s))
  let sel := selectAux (sortByScoreDesc scored) [] 0
  if sel = [] then sents.take 3 else sel

/-- `_summarize_heuristic`: the selected sentences, reassembled in original
document order. -/
def summarizeHeuristic (text : Str) : Str :=
  joinSpace ((sentencesOfC8 text).filter (fun s => (heuristicSelected text).contains s))

/-- Legacy `summarize_text` with the external model unavailable: texts whose
stripped length is below 100 are returned stripped, all others go through the
extractive heuristic (the HuggingFace path raises during model load and is
caught). -/
def summarizeTextFallback (text : Str) : Str :=
  if (pyStrip text).length < 100 then pyStrip text
  else summarizeHeuristic text

/-- C8 counterexample: a 120-character text (stripped length 119) made only
of sentences of at most 5 characters.  Every piece is filtered out by the
10-character sentence threshold, so the fallback summary is the empty
string, refuting the claim that the result is always non-empty. -/
theorem summarizer_fallback_empty_counterexample :
    100 ≤ (pyStrip (str "aaaa. aaaa. aaaa. aaaa. aaaa. aaaa. aaaa. aaaa. aaaa. aaaa. aaaa. aaaa. aaaa. aaaa. aaaa. aaaa. aaaa. aaaa. aaaa. aaaa. ")).length ∧
    summarizeTextFallback (str "aaaa. aaaa. aaaa. aaaa. aaaa. aaaa. aaaa. aaaa. aaaa. aaaa. aaaa. aaaa. aaaa. aaaa. aaaa. aaaa. aaaa. aaaa. aaaa. aaaa. ") = [] := by
  constructor
  · decide
  · decide

/-- C8 amended: with the external model unavailable, `summarize_text` on any
text of stripped length at least 100 returns the space-join of a
subsequence of the document's own sentences (in original order), each of
which is a contiguous substring of the original text; the result can be
empty when no sentence exceeds the 10-character threshold. -/
theorem summarizer_fallback_amended (text : Str) (h : 100 ≤ (pyStrip text).length) :
    ∃ sel : List Str,
      List.Sublist sel (sentencesOfC8 text) ∧
      summarizeTextFallback text = joinSpace sel ∧
      ∀ s ∈ sel, SubSeg s text := by
  have hno : ¬ (pyStrip text).length < 100 := by omega
  refine ⟨(sentencesOfC8 text).filter (fun s => (heuristicSelected text).contains s),
    List.filter_sublist _, ?_, ?_⟩
  · unfold summarizeTextFallback
    rw [if_neg hno]
    rfl
  · intro s hs
    exact sentencesOfC8_subSeg text s (List.mem_of_mem_filter hs)

/-- Witness for C8's amended theorem on the 120-character concrete text. -/
theorem summarizer_fallback_amended_witness :
    ∃ sel : List Str,
      List.Sublist sel (sentencesOfC8 (str "aaaa. aaaa. aaaa. aaaa. aaaa. aaaa. aaaa. aaaa. aaaa. aaaa. aaaa. aaaa. aaaa. aaaa. aaaa. aaaa. aaaa. aaaa. aaaa. aaaa. ")) ∧
      summarizeTextFallback (str "aaaa. aaaa. aaaa. aaaa. aaaa. aaaa. aaaa. aaaa. aaaa. aaaa. aaaa. aaaa. aaaa. aaaa. aaaa. aaaa. aaaa. aaaa. aaaa. aaaa. ") = joinSpace sel ∧
      ∀ s ∈ sel, SubSeg s (str "aaaa. aaaa. aaaa. aaaa. aaaa. aaaa. aaaa. aaaa. aaaa. aaaa. aaaa. aaaa. aaaa. aaaa. aaaa. aaaa. aaaa. aaaa. aaaa. aaaa. ") :=
  summarizer_fallback_amended _ (by decide)

end Rpac
